import Mathlib

/-!
Verification development for `backup_automatizado.py`, a single-file backup
orchestrator.  The Python program is shallowly embedded: each method of
`BackupManager` (and the free function `enviar_notificacao`) becomes a pure
Lean function over an explicit `World` of environment oracles (filesystem
listing, disk usage, external process exit codes).  Observable side effects
(desktop notifications, directory creation, rsync invocation, recursive
removals) are collected into an event trace.

Numeric conventions:
- `datetime` values are modelled as microseconds in the proleptic Gregorian
  calendar (`toOrdinal y m d * usecPorDia + timeOfDayUsec`), matching the
  resolution and ordering of Python `datetime` objects.
- Byte counts are `Nat`; the GB conversions done in floating point by the
  source are modelled exactly over `ℚ`.
-/

/-- Urgency levels accepted by `enviar_notificacao` (`notify-send --urgency`). -/
inductive Urgency
  | low
  | normal
  | critical
deriving DecidableEq, Repr

/-- Observable effects of one run.  Log lines are not modelled; notification
bodies are elided (only the title and urgency are kept, which identify the
call site uniquely). -/
inductive Event
  | notify (titulo : String) (urgencia : Urgency)
  | mkdirBackup
  | rsyncCall (dryRunFlag : Bool)
  | rmtree (nome : String)
deriving DecidableEq, Repr

/-- One entry of `destino.iterdir()`: a name and whether `is_dir()` holds. -/
structure DirEntry where
  name : String
  isDir : Bool
deriving DecidableEq, Repr

/-- Result of `shutil.disk_usage` (bytes). -/
structure DiskUsage where
  total : Nat
  used : Nat
  free : Nat
deriving DecidableEq, Repr

/-- The `BackupConfig` dataclass (YAML-loaded configuration snapshot). -/
structure BackupConfig where
  origem : String
  destino : String
  logDir : String
  retencaoDias : Nat
  espacoMinimoGb : ℚ
  exclusoes : List String

/-- Environment oracles for one run: everything the program observes from the
outside world.  `mountpointRC` is the exit code of `mountpoint -q`;
`diskUsage = none` models `shutil.disk_usage` raising `OSError`;
`rsyncRC = none` models an exception while launching rsync; `removeOk`
tells whether `shutil.rmtree` on a given directory succeeds (false models a
caught `OSError`); `nowUsec` is `datetime.now()` in microseconds. -/
structure World where
  destinoExists : Bool
  mountpointRC : Int
  diskUsage : Option DiskUsage
  rsyncRC : Option Int
  listing : List DirEntry
  removeOk : String → Bool
  nowUsec : Int

/-- Microseconds per day (`timedelta(days=1)` at `datetime` resolution). -/
def usecPorDia : Int := 86400000000

-- ── Calendar arithmetic (mirrors Python `datetime.date`) ─────────────────────

/-- Gregorian leap-year rule used by `datetime`. -/
def bissexto (y : Nat) : Bool :=
  (y % 4 == 0 && y % 100 != 0) || y % 400 == 0

/-- Days in month `m` of year `y` (as in `calendar`/`datetime`). -/
def diasNoMes (y m : Nat) : Nat :=
  if m = 2 then (if bissexto y then 29 else 28)
  else if m = 4 ∨ m = 6 ∨ m = 9 ∨ m = 11 then 30
  else 31

/-- Days before January 1 of year `y` (proleptic Gregorian, year 1 based). -/
def diasAntesAno (y : Nat) : Nat :=
  ((y - 1) * 365 + (y - 1) / 4 - (y - 1) / 100) + (y - 1) / 400

/-- Days in year `y` strictly before month `m`. -/
def diasAntesMes (y m : Nat) : Nat :=
  ((List.range (m - 1)).map (fun i => diasNoMes y (i + 1))).sum

/-- `date(y, m, d).toordinal()`: day number with 0001-01-01 = 1. -/
def toOrdinal (y m d : Nat) : Nat :=
  diasAntesAno y + diasAntesMes y m + d

-- ── `datetime.strptime(s, "%Y-%m-%d")` ───────────────────────────────────────

/-- ASCII decimal digit test (CPython `\d` also admits other Unicode decimal
digits; directory names produced by this program are ASCII, so the model is
restricted to ASCII digits). -/
def ehDigito (c : Char) : Bool := decide ('0' ≤ c ∧ c ≤ '9')

/-- Numeric value of a decimal digit character. -/
def valDigito (c : Char) : Nat := c.toNat - 48

/-- `%Y`: exactly four decimal digits. -/
def parseAno : List Char → Option Nat
  | [a, b, c, d] =>
    if ehDigito a && ehDigito b && ehDigito c && ehDigito d then
      some (((valDigito a * 10 + valDigito b) * 10 + valDigito c) * 10 + valDigito d)
    else none
  | _ => none

/-- `%m`: the regex alternatives `1[0-2]|0[1-9]|[1-9]` used by CPython
`_strptime` (one or two digits, value 1..12). -/
def parseMes : List Char → Option Nat
  | [a] => if decide ('1' ≤ a ∧ a ≤ '9') then some (valDigito a) else none
  | [a, b] =>
    if a = '1' ∧ '0' ≤ b ∧ b ≤ '2' then some (10 + valDigito b)
    else if a = '0' ∧ '1' ≤ b ∧ b ≤ '9' then some (valDigito b)
    else none
  | _ => none

/-- `%d`: the regex alternatives `3[01]|[12]\d|0[1-9]|[1-9]` (one or two
digits, value 1..31). -/
def parseDia : List Char → Option Nat
  | [a] => if decide ('1' ≤ a ∧ a ≤ '9') then some (valDigito a) else none
  | [a, b] =>
    if a = '3' ∧ (b = '0' ∨ b = '1') then some (30 + valDigito b)
    else if (a = '1' ∨ a = '2') ∧ ehDigito b then some (valDigito a * 10 + valDigito b)
    else if a = '0' ∧ '1' ≤ b ∧ b ≤ '9' then some (valDigito b)
    else none
  | _ => none

/-- Split a character list on the literal `'-'` separator. -/
def splitTraco : List Char → List (List Char)
  | [] => [[]]
  | c :: cs =>
    if c = '-' then [] :: splitTraco cs
    else
      match splitTraco cs with
      | [] => [[c]]
      | f :: r => (c :: f) :: r

/-- `datetime.strptime(s, "%Y-%m-%d")`, returning the `(year, month, day)`
triple on success.  The whole string must be consumed (strptime raises
`ValueError` on unconverted data) and the triple must be a valid
`datetime` date (year ≥ 1, day within the month), the constructor check
that makes `strptime` reject e.g. `2024-02-30`. -/
def parseDataYMD (cs : List Char) : Option (Nat × Nat × Nat) :=
  match splitTraco cs with
  | [ys, ms, ds] =>
    match parseAno ys, parseMes ms, parseDia ds with
    | some y, some m, some d =>
      if 1 ≤ y ∧ d ≤ diasNoMes y m then some (y, m, d) else none
    | _, _, _ => none
  | _ => none

-- ── `str.replace("backup_", "")` and `str.startswith("backup_")` ─────────────

/-- The literal `"backup_"` as characters. -/
def padraoBackup : List Char := ['b', 'a', 'c', 'k', 'u', 'p', '_']

/-- `name.replace("backup_", "")`: remove every (left-to-right,
non-overlapping) occurrence of `"backup_"`.  When the pattern is a prefix of
the remaining input the seven matched characters are dropped and scanning
resumes after them; otherwise one character is kept. -/
def removeBackupTodos : List Char → List Char
  | 'b' :: 'a' :: 'c' :: 'k' :: 'u' :: 'p' :: '_' :: resto => removeBackupTodos resto
  | c :: cs => c :: removeBackupTodos cs
  | [] => []

/-- The date extracted by `rotacionar_backups` from a folder name:
`datetime.strptime(pasta.name.replace("backup_", ""), "%Y-%m-%d")`. -/
def dataDoNome (nome : String) : Option (Nat × Nat × Nat) :=
  parseDataYMD (removeBackupTodos nome.toList)

-- ── Sorting of `sorted(destino.iterdir())` ───────────────────────────────────

/-- Insert an entry into a name-sorted list (Python `sorted` compares the
`Path` objects, which for children of one directory is their name order). -/
def insereOrdenado (e : DirEntry) : List DirEntry → List DirEntry
  | [] => [e]
  | x :: xs => if x.name < e.name then x :: insereOrdenado e xs else e :: x :: xs

/-- `sorted(...)` on the directory listing. -/
def ordenaPorNome : List DirEntry → List DirEntry
  | [] => []
  | x :: xs => insereOrdenado x (ordenaPorNome xs)

-- ── `enviar_notificacao` ─────────────────────────────────────────────────────

/-- How one `subprocess.run(["notify-send", ...], check=False, timeout=5)`
call can end. `delivered rc` is normal completion with any exit code
(`check=False` never raises on a nonzero code); `toolMissing` is
`FileNotFoundError`; `timedOut` is `subprocess.TimeoutExpired`;
`launchOSError` is any other `OSError` raised while spawning the tool
(e.g. `PermissionError` when `notify-send` exists but is not executable). -/
inductive NotifyOutcome
  | delivered (rc : Int)
  | toolMissing
  | timedOut
  | launchOSError (msg : String)
deriving DecidableEq, Repr

/-- The `timeout=5` argument of the notification subprocess call (seconds). -/
def notifyTimeoutSeconds : Nat := 5

/-- `enviar_notificacao(titulo, mensagem, urgencia)`: runs notify-send and
swallows exactly `FileNotFoundError` and `subprocess.TimeoutExpired`.
`Except.error` models an exception propagating out of the function. -/
def enviarNotificacao (_titulo _mensagem _urgencia : String)
    (resultado : NotifyOutcome) : Except String Unit :=
  match resultado with
  | NotifyOutcome.delivered _ => Except.ok ()
  | NotifyOutcome.toolMissing => Except.ok ()
  | NotifyOutcome.timedOut => Except.ok ()
  | NotifyOutcome.launchOSError msg => Except.error msg

-- ── `BackupManager` steps ────────────────────────────────────────────────────

/-- `verificar_hd_montado`: destination must exist and `mountpoint -q` must
exit 0; each failure notifies with title "❌ Backup Falhou" at critical
urgency. -/
def verificarHdMontado (c : BackupConfig) (w : World) : Bool × List Event :=
  let _ := c.destino
  if w.destinoExists = false then
    (false, [Event.notify "❌ Backup Falhou" Urgency.critical])
  else if w.mountpointRC ≠ 0 then
    (false, [Event.notify "❌ Backup Falhou" Urgency.critical])
  else (true, [])

/-- `uso.free / (1024 ** 3)`, computed exactly over `ℚ` (the source uses
Python floats). -/
def livreGb (uso : DiskUsage) : ℚ := (uso.free : ℚ) / (1024 ^ 3)

/-- `verificar_espaco_disco`: an `OSError` from `shutil.disk_usage` or free
space below the configured minimum is a hard failure with a critical
notification; free space below twice the minimum proceeds with one
normal-urgency warning; otherwise silent pass.  Before any of that, the
method computes `percentual_usado = (uso.used / uso.total) * 100`; when the
query succeeds with `total = 0` (e.g. a pseudo-filesystem such as `/proc`)
this raises an uncaught `ZeroDivisionError`, modelled as `none`: the
exception escapes the method (and the whole run). -/
def verificarEspacoDisco (c : BackupConfig) (w : World) : Option (Bool × List Event) :=
  match w.diskUsage with
  | none => some (false, [Event.notify "❌ Backup Falhou" Urgency.critical])
  | some uso =>
    if uso.total = 0 then none
    else if livreGb uso < c.espacoMinimoGb then
      some (false, [Event.notify "🚫 HD Cheio — Backup Cancelado" Urgency.critical])
    else if livreGb uso < c.espacoMinimoGb * 2 then
      some (true, [Event.notify "⚠️ Espaço em Disco Baixo" Urgency.normal])
    else some (true, [])

/-- `executar_rsync`: in non-dry-run mode the daily backup directory is
created eagerly; the rsync subprocess is then invoked (`rsyncCall` records
the invocation attempt and whether `--dry-run` was passed).  A launch
exception (`rsyncRC = none`) or a nonzero exit code notifies critically and
fails; exit code 0 succeeds with no notification. -/
def executarRsync (_c : BackupConfig) (w : World) (dryRun : Bool) : Bool × List Event :=
  let pre := (if dryRun then [] else [Event.mkdirBackup]) ++ [Event.rsyncCall dryRun]
  match w.rsyncRC with
  | none => (false, pre ++ [Event.notify "❌ Backup Falhou" Urgency.critical])
  | some rc =>
    if rc = 0 then (true, pre)
    else (false, pre ++ [Event.notify "❌ Backup Falhou" Urgency.critical])

/-- Loop body of `rotacionar_backups`: walk the (sorted) listing, skip
non-directories and names without the `backup_` prefix, parse the date from
`name.replace("backup_", "")` (a `ValueError` skips the entry), and remove
the folder when its midnight timestamp is strictly below the cutoff
(`removeOk = false` models a caught `OSError` from `shutil.rmtree`: logged,
the loop continues).  The accumulator carries removed names and the
`removidos` counter. -/
def rotLoop (limite : Int) (removeOk : String → Bool) :
    List DirEntry → List String × Nat → List String × Nat
  | [], acc => acc
  | pasta :: resto, acc =>
    if pasta.isDir = false ∨ (padraoBackup.isPrefixOf pasta.name.toList) = false then
      rotLoop limite removeOk resto acc
    else
      match dataDoNome pasta.name with
      | none => rotLoop limite removeOk resto acc
      | some (y, m, d) =>
        if (toOrdinal y m d : Int) * usecPorDia < limite then
          if removeOk pasta.name then
            rotLoop limite removeOk resto (acc.1 ++ [pasta.name], acc.2 + 1)
          else rotLoop limite removeOk resto acc
        else rotLoop limite removeOk resto acc

/-- `rotacionar_backups`: returns the removed directory names (in processing
order) and the `removidos` counter.  In dry-run mode the method returns
immediately. -/
def rotacionarBackups (dryRun : Bool) (nowUsec : Int) (retencaoDias : Nat)
    (listing : List DirEntry) (removeOk : String → Bool) : List String × Nat :=
  if dryRun then ([], 0)
  else
    let limite : Int := nowUsec - (retencaoDias : Int) * usecPorDia
    rotLoop limite removeOk (ordenaPorNome listing) ([], 0)

/-- `_formatar_duracao` on a whole number of seconds
(`int(duracao.total_seconds())`, non-negative for a real run). -/
def formatarDuracao (totalSeg : Nat) : String :=
  let horas := totalSeg / 3600
  let resto := totalSeg % 3600
  let minutos := resto / 60
  let segundos := resto % 60
  if 0 < horas then
    toString horas ++ "h " ++ toString minutos ++ "min " ++ toString segundos ++ "s"
  else if 0 < minutos then
    toString minutos ++ "min " ++ toString segundos ++ "s"
  else
    toString segundos ++ "s"

-- ── `executar` (the orchestrator) ────────────────────────────────────────────

/-- Stage-2 verdict as the orchestrator sees it when it sees one at all: a
crashed space check (`ZeroDivisionError`, `none`) produces no verdict and
no events, and no later stage boundary exists — for sequencing purposes it
behaves as a failing stage with an empty event list. -/
def espacoEtapa (c : BackupConfig) (w : World) : Bool × List Event :=
  match verificarEspacoDisco c w with
  | none => (false, [])
  | some s2 => s2

/-- The four gated stages of `executar`, each as (verdict, events).  Stage 4
(reached only when rsync succeeded) performs the rotation and then, in
non-dry-run mode, the low-urgency success notification; it never changes
the verdict. -/
def stepsOf (c : BackupConfig) (w : World) (dryRun : Bool) : List (Bool × List Event) :=
  let rot := rotacionarBackups dryRun w.nowUsec c.retencaoDias w.listing w.removeOk
  let fin := rot.1.map Event.rmtree ++
    (if dryRun then [] else [Event.notify "✅ Backup Concluído" Urgency.low])
  [verificarHdMontado c w, espacoEtapa c w, executarRsync c w dryRun, (true, fin)]

/-- Run gated stages in order, halting at the first failing verdict. -/
def runSteps : List (Bool × List Event) → Bool × List Event
  | [] => (true, [])
  | st :: resto =>
    if st.1 then
      let r := runSteps resto
      (r.1, st.2 ++ r.2)
    else (false, st.2)

/-- `BackupManager.executar`: sequences the four stages and returns the
overall success flag together with the trace of observable effects.
`none` is the run dying on the uncaught `ZeroDivisionError` of the space
check (which only executes after the mount check passed); in that case no
notification was emitted before the crash. -/
def executar (c : BackupConfig) (w : World) (dryRun : Bool) :
    Option (Bool × List Event) :=
  match verificarEspacoDisco c w with
  | none =>
    if (verificarHdMontado c w).1 then none
    else some (runSteps (stepsOf c w dryRun))
  | some _ => some (runSteps (stepsOf c w dryRun))

/-- The run outcome: `none` when the process died on an uncaught exception,
otherwise the success flag `executar` returned. -/
def resultadoDe (r : Option (Bool × List Event)) : Option Bool :=
  r.map Prod.fst

/-- The events observed during the run, including a run that crashed (for
the one crash point modelled, the mount check had passed silently, so
nothing had been emitted yet). -/
def eventosDe : Option (Bool × List Event) → List Event
  | none => []
  | some r => r.2

/-- `main`: `sys.exit(0 if sucesso else 1)`; a run that died on an uncaught
exception terminates with a traceback and status 1 as well. -/
def mainExitCode (c : BackupConfig) (w : World) (dryRun : Bool) : Nat :=
  match executar c w dryRun with
  | some (true, _) => 0
  | some (false, _) => 1
  | none => 1

-- ── `_handler_sinal` and signal delivery ─────────────────────────────────────

/-- `_handler_sinal`: on SIGINT/SIGTERM, log a warning, set
`_interrompido`, send one critical notification and `sys.exit(130)`.
Returns (events, interrupted flag, exit status). -/
def handlerSinal (_nomeSinal : String) : List Event × Bool × Nat :=
  ([Event.notify "⚠️ Backup Interrompido" Urgency.critical], true, 130)

/-- Cooperative model of an interrupt delivered after `k` completed stages:
the trace so far is the concatenation of the first `k` stages' events,
followed by the handler's effects; nothing runs afterwards. -/
def runSignalled (steps : List (Bool × List Event)) (k : Nat) (nomeSinal : String) :
    List Event × Bool × Nat :=
  (((steps.take k).map Prod.snd).flatten ++ (handlerSinal nomeSinal).1,
   (handlerSinal nomeSinal).2.1, (handlerSinal nomeSinal).2.2)

-- ── Trace observations ───────────────────────────────────────────────────────

/-- Number of notifications with the given urgency in a trace. -/
def countUrg (u : Urgency) (evs : List Event) : Nat :=
  evs.countP (fun e =>
    match e with
    | Event.notify _ u2 => decide (u2 = u)
    | _ => false)

/-- Number of rsync invocation attempts in a trace. -/
def countTransfer (evs : List Event) : Nat :=
  evs.countP (fun e =>
    match e with
    | Event.rsyncCall _ => true
    | _ => false)

/-- Number of recursive directory removals in a trace. -/
def countRmtree (evs : List Event) : Nat :=
  evs.countP (fun e =>
    match e with
    | Event.rmtree _ => true
    | _ => false)

/-- Whether an event creates, modifies or deletes a filesystem entry under
the destination.  An rsync invocation with `--dry-run` performs no
mutation (rsync contract); without it, `--delete` may mutate. -/
def mutatesDestino : Event → Bool
  | Event.notify _ _ => false
  | Event.mkdirBackup => true
  | Event.rsyncCall dryFlag => !dryFlag
  | Event.rmtree _ => true

-- ── Characterizations used in the claim statements ───────────────────────────

/-- Per-entry removal condition implemented by the rotation loop: a
directory whose name starts with `backup_`, whose name with every
`backup_` occurrence deleted parses under `%Y-%m-%d`, and whose parsed
midnight is strictly before `now − retentionDays`. -/
def isRotationCandidate (nowUsec : Int) (retencaoDias : Nat) (e : DirEntry) : Bool :=
  e.isDir && padraoBackup.isPrefixOf e.name.toList &&
    (match dataDoNome e.name with
     | some (y, m, d) =>
       decide ((toOrdinal y m d : Int) * usecPorDia < nowUsec - (retencaoDias : Int) * usecPorDia)
     | none => false)

/-- Modelled from the spec: a name matching the pattern
`backup_<YYYY-MM-DD>` exactly — the literal prefix followed by a
zero-padded four-digit year, two-digit month and two-digit day forming a
valid calendar date. -/
def specMatchesBackupPattern (s : String) : Bool :=
  match s.toList with
  | 'b' :: 'a' :: 'c' :: 'k' :: 'u' :: 'p' :: '_' ::
      y1 :: y2 :: y3 :: y4 :: '-' :: m1 :: m2 :: '-' :: d1 :: d2 :: [] =>
    ehDigito y1 && ehDigito y2 && ehDigito y3 && ehDigito y4 &&
    ehDigito m1 && ehDigito m2 && ehDigito d1 && ehDigito d2 &&
    (let y := ((valDigito y1 * 10 + valDigito y2) * 10 + valDigito y3) * 10 + valDigito y4
     let m := valDigito m1 * 10 + valDigito m2
     let d := valDigito d1 * 10 + valDigito d2
     decide (1 ≤ y ∧ 1 ≤ m ∧ m ≤ 12 ∧ 1 ≤ d ∧ d ≤ diasNoMes y m))
  | _ => false

-- ── Trace-counting lemmas ────────────────────────────────────────────────────

lemma countUrg_append (u : Urgency) (a b : List Event) :
    countUrg u (a ++ b) = countUrg u a + countUrg u b := by
  simp [countUrg, List.countP_append]

lemma countTransfer_append (a b : List Event) :
    countTransfer (a ++ b) = countTransfer a + countTransfer b := by
  simp [countTransfer, List.countP_append]

lemma countRmtree_append (a b : List Event) :
    countRmtree (a ++ b) = countRmtree a + countRmtree b := by
  simp [countRmtree, List.countP_append]

lemma countUrg_map_rmtree (u : Urgency) (l : List String) :
    countUrg u (l.map Event.rmtree) = 0 := by
  induction l with
  | nil => rfl
  | cons a t ih => simp [countUrg, List.countP_cons]

lemma countTransfer_map_rmtree (l : List String) :
    countTransfer (l.map Event.rmtree) = 0 := by
  induction l with
  | nil => rfl
  | cons a t ih => simp [countTransfer, List.countP_cons]

-- ── Case lemmas for the individual steps ─────────────────────────────────────

lemma verificarHdMontado_cases (c : BackupConfig) (w : World) :
    verificarHdMontado c w = (true, []) ∨
    verificarHdMontado c w = (false, [Event.notify "❌ Backup Falhou" Urgency.critical]) := by
  unfold verificarHdMontado
  split_ifs <;> simp

lemma verificarHdMontado_ok (c : BackupConfig) (w : World)
    (h1 : w.destinoExists = true) (h2 : w.mountpointRC = 0) :
    verificarHdMontado c w = (true, []) := by
  simp [verificarHdMontado, h1, h2]

lemma verificarHdMontado_fail (c : BackupConfig) (w : World)
    (h : w.destinoExists = false ∨ w.mountpointRC ≠ 0) :
    verificarHdMontado c w = (false, [Event.notify "❌ Backup Falhou" Urgency.critical]) := by
  rcases h with h | h
  · simp [verificarHdMontado, h]
  · cases hde : w.destinoExists <;> simp [verificarHdMontado, hde, h]

lemma verificarEspacoDisco_cases (c : BackupConfig) (w : World) :
    verificarEspacoDisco c w =
      some (false, [Event.notify "❌ Backup Falhou" Urgency.critical]) ∨
    verificarEspacoDisco c w = none ∨
    verificarEspacoDisco c w =
      some (false, [Event.notify "🚫 HD Cheio — Backup Cancelado" Urgency.critical]) ∨
    verificarEspacoDisco c w =
      some (true, [Event.notify "⚠️ Espaço em Disco Baixo" Urgency.normal]) ∨
    verificarEspacoDisco c w = some (true, []) := by
  cases hdu : w.diskUsage with
  | none => simp [verificarEspacoDisco, hdu]
  | some uso =>
    by_cases h0 : uso.total = 0
    · simp [verificarEspacoDisco, hdu, h0]
    · by_cases h1 : livreGb uso < c.espacoMinimoGb
      · simp [verificarEspacoDisco, hdu, h0, h1]
      · by_cases h2 : livreGb uso < c.espacoMinimoGb * 2 <;>
          simp [verificarEspacoDisco, hdu, h0, h1, h2]

lemma verificarEspacoDisco_none (c : BackupConfig) (w : World) (h : w.diskUsage = none) :
    verificarEspacoDisco c w =
      some (false, [Event.notify "❌ Backup Falhou" Urgency.critical]) := by
  simp [verificarEspacoDisco, h]

lemma verificarEspacoDisco_crash (c : BackupConfig) (w : World) (uso : DiskUsage)
    (h : w.diskUsage = some uso) (h0 : uso.total = 0) :
    verificarEspacoDisco c w = none := by
  simp [verificarEspacoDisco, h, h0]

lemma verificarEspacoDisco_low (c : BackupConfig) (w : World) (uso : DiskUsage)
    (h : w.diskUsage = some uso) (h0 : uso.total ≠ 0)
    (hl : livreGb uso < c.espacoMinimoGb) :
    verificarEspacoDisco c w =
      some (false, [Event.notify "🚫 HD Cheio — Backup Cancelado" Urgency.critical]) := by
  simp [verificarEspacoDisco, h, h0, hl]

lemma verificarEspacoDisco_warn (c : BackupConfig) (w : World) (uso : DiskUsage)
    (h : w.diskUsage = some uso) (h0 : uso.total ≠ 0)
    (h1 : c.espacoMinimoGb ≤ livreGb uso)
    (h2 : livreGb uso < c.espacoMinimoGb * 2) :
    verificarEspacoDisco c w =
      some (true, [Event.notify "⚠️ Espaço em Disco Baixo" Urgency.normal]) := by
  simp [verificarEspacoDisco, h, h0, h2, not_lt.mpr h1]

lemma livreGb_nonneg (uso : DiskUsage) : 0 ≤ livreGb uso := by
  unfold livreGb
  positivity

lemma verificarEspacoDisco_hi (c : BackupConfig) (w : World) (uso : DiskUsage)
    (h : w.diskUsage = some uso) (h0 : uso.total ≠ 0)
    (h2 : c.espacoMinimoGb * 2 ≤ livreGb uso) :
    verificarEspacoDisco c w = some (true, []) := by
  have hge := livreGb_nonneg uso
  have hn1 : ¬ (livreGb uso < c.espacoMinimoGb) := by
    intro hlt
    linarith
  have hn2 : ¬ (livreGb uso < c.espacoMinimoGb * 2) := not_lt.mpr h2
  simp [verificarEspacoDisco, h, h0, hn1, hn2]

lemma espacoEtapa_cases (c : BackupConfig) (w : World) :
    espacoEtapa c w = (false, [Event.notify "❌ Backup Falhou" Urgency.critical]) ∨
    espacoEtapa c w = (false, []) ∨
    espacoEtapa c w = (false, [Event.notify "🚫 HD Cheio — Backup Cancelado" Urgency.critical]) ∨
    espacoEtapa c w = (true, [Event.notify "⚠️ Espaço em Disco Baixo" Urgency.normal]) ∨
    espacoEtapa c w = (true, []) := by
  obtain h | h | h | h | h := verificarEspacoDisco_cases c w <;>
    simp [espacoEtapa, h]

lemma executarRsync_cases (c : BackupConfig) (w : World) (dry : Bool) :
    executarRsync c w dry =
      (true, (if dry then [] else [Event.mkdirBackup]) ++ [Event.rsyncCall dry]) ∨
    executarRsync c w dry =
      (false, ((if dry then [] else [Event.mkdirBackup]) ++ [Event.rsyncCall dry]) ++
        [Event.notify "❌ Backup Falhou" Urgency.critical]) := by
  cases hrc : w.rsyncRC with
  | none => simp [executarRsync, hrc]
  | some rc => by_cases h0 : rc = 0 <;> simp [executarRsync, hrc, h0]

lemma executarRsync_ok (c : BackupConfig) (w : World) (dry : Bool) (h : w.rsyncRC = some 0) :
    executarRsync c w dry =
      (true, (if dry then [] else [Event.mkdirBackup]) ++ [Event.rsyncCall dry]) := by
  simp [executarRsync, h]

lemma executarRsync_fail (c : BackupConfig) (w : World) (dry : Bool)
    (h : w.rsyncRC = none ∨ ∃ rc, w.rsyncRC = some rc ∧ rc ≠ 0) :
    executarRsync c w dry =
      (false, ((if dry then [] else [Event.mkdirBackup]) ++ [Event.rsyncCall dry]) ++
        [Event.notify "❌ Backup Falhou" Urgency.critical]) := by
  rcases h with h | ⟨rc, h, hrc⟩
  · simp [executarRsync, h]
  · simp [executarRsync, h, hrc]

lemma runSteps_stepsOf_fst (c : BackupConfig) (w : World) (dry : Bool) :
    (runSteps (stepsOf c w dry)).1 =
      ((verificarHdMontado c w).1 &&
        ((espacoEtapa c w).1 && (executarRsync c w dry).1)) := by
  obtain h1 | h1 := verificarHdMontado_cases c w <;>
    obtain h2 | h2 | h2 | h2 | h2 := espacoEtapa_cases c w <;>
      obtain h3 | h3 := executarRsync_cases c w dry <;>
        simp [stepsOf, runSteps, h1, h2, h3]

-- ── Rotation loop characterization ───────────────────────────────────────────

/-- The exact per-entry condition under which the rotation loop removes an
entry: directory, `backup_` prefix, parseable embedded date strictly below
the cutoff, and a successful `rmtree`. -/
def removedByLoop (limite : Int) (removeOk : String → Bool) (e : DirEntry) : Bool :=
  e.isDir && padraoBackup.isPrefixOf e.name.toList &&
    (match dataDoNome e.name with
     | some (y, m, d) => decide ((toOrdinal y m d : Int) * usecPorDia < limite)
     | none => false) && removeOk e.name

lemma rotLoop_eq (limite : Int) (removeOk : String → Bool) (l : List DirEntry)
    (acc : List String × Nat) :
    rotLoop limite removeOk l acc =
      (acc.1 ++ (l.filter (removedByLoop limite removeOk)).map DirEntry.name,
       acc.2 + (l.filter (removedByLoop limite removeOk)).length) := by
  induction l generalizing acc with
  | nil => simp [rotLoop]
  | cons pasta resto ih =>
    rw [rotLoop]
    by_cases hskip : pasta.isDir = false ∨ (padraoBackup.isPrefixOf pasta.name.toList) = false
    · rw [if_pos hskip, ih]
      have hp : removedByLoop limite removeOk pasta = false := by
        unfold removedByLoop
        rcases hskip with h | h <;> rw [h] <;> simp
      simp [List.filter_cons, hp]
    · rw [if_neg hskip]
      push_neg at hskip
      obtain ⟨hdir, hpre⟩ := hskip
      replace hdir : pasta.isDir = true := by
        cases hd : pasta.isDir
        · exact absurd hd hdir
        · rfl
      replace hpre : padraoBackup.isPrefixOf pasta.name.toList = true := by
        cases hq : padraoBackup.isPrefixOf pasta.name.toList
        · exact absurd hq hpre
        · rfl
      cases hdn : dataDoNome pasta.name with
      | none =>
        rw [ih]
        have hp : removedByLoop limite removeOk pasta = false := by
          unfold removedByLoop
          rw [hdn]
          simp
        simp [List.filter_cons, hp]
      | some t =>
        obtain ⟨y, m, d⟩ := t
        dsimp only
        by_cases hold : (toOrdinal y m d : Int) * usecPorDia < limite
        · rw [if_pos hold]
          cases hro : removeOk pasta.name with
          | false =>
            rw [if_neg Bool.false_ne_true, ih]
            have hp : removedByLoop limite removeOk pasta = false := by
              unfold removedByLoop
              rw [hdn, hro]
              simp
            simp [List.filter_cons, hp]
          | true =>
            rw [if_pos rfl, ih]
            have hp : removedByLoop limite removeOk pasta = true := by
              unfold removedByLoop
              rw [hdir, hpre, hdn, hro]
              simp [hold]
            simp [List.filter_cons, hp]
            omega
        · rw [if_neg hold, ih]
          have hp : removedByLoop limite removeOk pasta = false := by
            unfold removedByLoop
            rw [hdn]
            simp [hold]
          simp [List.filter_cons, hp]

lemma removedByLoop_all_true (nowUsec : Int) (ret : Nat) (e : DirEntry) :
    removedByLoop (nowUsec - (ret : Int) * usecPorDia) (fun _ => true) e =
      isRotationCandidate nowUsec ret e := by
  simp [removedByLoop, isRotationCandidate]

lemma removedByLoop_split (nowUsec : Int) (ret : Nat) (removeOk : String → Bool) (e : DirEntry) :
    removedByLoop (nowUsec - (ret : Int) * usecPorDia) removeOk e =
      (isRotationCandidate nowUsec ret e && removeOk e.name) := by
  simp [removedByLoop, isRotationCandidate, Bool.and_assoc]

-- ── `sorted` is a permutation ────────────────────────────────────────────────

lemma insereOrdenado_perm (e : DirEntry) (l : List DirEntry) :
    List.Perm (insereOrdenado e l) (e :: l) := by
  induction l with
  | nil => exact List.Perm.refl _
  | cons x xs ih =>
    rw [insereOrdenado]
    by_cases h : x.name < e.name
    · rw [if_pos h]
      exact (ih.cons x).trans (List.Perm.swap e x xs)
    · rw [if_neg h]

lemma ordenaPorNome_perm (l : List DirEntry) : List.Perm (ordenaPorNome l) l := by
  induction l with
  | nil => exact List.Perm.refl _
  | cons x xs ih => exact (insereOrdenado_perm x (ordenaPorNome xs)).trans (ih.cons x)

-- ── Claims ───────────────────────────────────────────────────────────────────

/-- C8 (amended): the notification call is bounded by a 5-second timeout and
returns normally — swallowing the failure — when the tool completes with any
exit code (`check=False`), when the tool is absent (`FileNotFoundError`),
and when the call times out (`TimeoutExpired`); since it never raises in
those cases, it cannot abort or alter the run. -/
theorem c8_notification_swallows (t msg u : String) (rc : Int) :
    enviarNotificacao t msg u (NotifyOutcome.delivered rc) = Except.ok () ∧
    enviarNotificacao t msg u NotifyOutcome.toolMissing = Except.ok () ∧
    enviarNotificacao t msg u NotifyOutcome.timedOut = Except.ok () ∧
    notifyTimeoutSeconds = 5 :=
  ⟨rfl, rfl, rfl, rfl⟩

/-- C8 counterexample: an `OSError` other than `FileNotFoundError` raised
while launching the notification tool (e.g. `PermissionError` when
`notify-send` is present but not executable) is not caught by
`enviar_notificacao` and propagates, so not every delivery failure is
swallowed. -/
theorem c8_counterexample :
    enviarNotificacao "✅ Backup Concluído" "mensagem" "low"
      (NotifyOutcome.launchOSError "PermissionError") =
      Except.error "PermissionError" :=
  rfl

/-- C9: `_formatar_duracao` renders 0–59 whole seconds as `Ns`, 60–3599 as
`Mmin Ss` with `M` the whole minutes and `S` the remaining seconds, and
3600 or more as `Hh Mmin Ss` with `H` the whole hours. -/
theorem c9_duration_format (n : Nat) :
    (n ≤ 59 → formatarDuracao n = toString n ++ "s") ∧
    (60 ≤ n → n ≤ 3599 →
      formatarDuracao n = toString (n / 60) ++ "min " ++ toString (n % 60) ++ "s") ∧
    (3600 ≤ n →
      formatarDuracao n = toString (n / 3600) ++ "h " ++ toString (n % 3600 / 60) ++
        "min " ++ toString (n % 3600 % 60) ++ "s") := by
  refine ⟨?_, ?_, ?_⟩
  · intro h
    have h1 : ¬ (0 < n / 3600) := by omega
    have h2 : ¬ (0 < n % 3600 / 60) := by omega
    rw [formatarDuracao, if_neg h1, if_neg h2, show n % 3600 % 60 = n by omega]
  · intro h1 h2
    have h3 : ¬ (0 < n / 3600) := by omega
    have h4 : 0 < n % 3600 / 60 := by omega
    rw [formatarDuracao, if_neg h3, if_pos h4, show n % 3600 / 60 = n / 60 by omega,
      show n % 3600 % 60 = n % 60 by omega]
  · intro h
    have h1 : 0 < n / 3600 := by omega
    rw [formatarDuracao, if_pos h1]

/-- C9 witness: the three bands at 59 s, 61 s and 3661 s. -/
theorem c9_witness :
    formatarDuracao 59 = "59s" ∧ formatarDuracao 61 = "1min 1s" ∧
    formatarDuracao 3661 = "1h 1min 1s" :=
  ⟨((c9_duration_format 59).1 (by omega)).trans (by decide),
   ((c9_duration_format 61).2.1 (by omega) (by omega)).trans (by decide),
   ((c9_duration_format 3661).2.2 (by omega)).trans (by decide)⟩

/-- C10: the rotation cutoff `now − retentionDays` keeps the time of day of
`now`, while parsed directory dates are midnights; hence on any run
strictly after midnight (time of day `s` with `0 < s < usecPorDia`), a
directory whose embedded date is exactly `retentionDays` days before
today's date is strictly older than the cutoff and is removed. -/
theorem c10_cutoff_includes_time_of_day (nm : String) (y m d T ret : Nat) (s : Int)
    (hparse : dataDoNome nm = some (y, m, d))
    (hpre : padraoBackup.isPrefixOf nm.toList = true)
    (hs0 : 0 < s) (_hs1 : s < usecPorDia)
    (hT : T = toOrdinal y m d + ret) :
    (rotacionarBackups false ((T : Int) * usecPorDia + s) ret
      [⟨nm, true⟩] (fun _ => true)).1 = [nm] := by
  rw [rotacionarBackups, if_neg Bool.false_ne_true, rotLoop_eq]
  have hlt : (toOrdinal y m d : Int) * usecPorDia <
      ((T : Int) * usecPorDia + s) - (ret : Int) * usecPorDia := by
    subst hT
    rw [show usecPorDia = 86400000000 from rfl]
    push_cast
    omega
  have hcand : removedByLoop (((T : Int) * usecPorDia + s) - (ret : Int) * usecPorDia)
      (fun _ => true) ⟨nm, true⟩ = true := by
    unfold removedByLoop
    dsimp only
    rw [hpre, hparse]
    dsimp only
    rw [decide_eq_true hlt]
    rfl
  simp [ordenaPorNome, insereOrdenado, List.filter_cons, hcand]

/-- C10 witness: with `now` one microsecond after midnight of 2025-10-12 and
a 30-day retention, `backup_2025-09-12` (exactly 30 days old) is removed. -/
theorem c10_witness :
    (rotacionarBackups false ((toOrdinal 2025 10 12 : Int) * usecPorDia + 1) 30
      [⟨"backup_2025-09-12", true⟩] (fun _ => true)).1 = ["backup_2025-09-12"] :=
  c10_cutoff_includes_time_of_day "backup_2025-09-12" 2025 9 12 (toOrdinal 2025 10 12) 30 1
    (by decide) (by decide) (by decide) (by decide) (by decide)

/-- C1 (amended): with all removals succeeding and dry-run off,
`rotacionar_backups` removes exactly the immediate children that are
directories whose name starts with `backup_` and whose name, with every
occurrence of `backup_` deleted, parses under `%Y-%m-%d` to a date strictly
older than `now − retentionDays` (`isRotationCandidate`); every other
entry, and every candidate-named directory within the window, is left
untouched, for every listing and in every enumeration order. -/
theorem c1_rotation_removes_exactly_candidates (nowUsec : Int) (ret : Nat)
    (listing : List DirEntry) :
    rotacionarBackups false nowUsec ret listing (fun _ => true) =
      (((ordenaPorNome listing).filter (isRotationCandidate nowUsec ret)).map DirEntry.name,
       ((ordenaPorNome listing).filter (isRotationCandidate nowUsec ret)).length) ∧
    ∀ nm : String,
      nm ∈ (rotacionarBackups false nowUsec ret listing (fun _ => true)).1 ↔
        ∃ e : DirEntry, e ∈ listing ∧ e.name = nm ∧
          isRotationCandidate nowUsec ret e = true := by
  have hfun : removedByLoop (nowUsec - (ret : Int) * usecPorDia) (fun _ => true) =
      isRotationCandidate nowUsec ret :=
    funext fun e => removedByLoop_all_true nowUsec ret e
  have hmain : rotacionarBackups false nowUsec ret listing (fun _ => true) =
      (((ordenaPorNome listing).filter (isRotationCandidate nowUsec ret)).map DirEntry.name,
       ((ordenaPorNome listing).filter (isRotationCandidate nowUsec ret)).length) := by
    rw [rotacionarBackups, if_neg Bool.false_ne_true, rotLoop_eq, hfun]
    simp
  refine ⟨hmain, fun nm => ?_⟩
  rw [hmain]
  simp only [List.mem_map, List.mem_filter]
  constructor
  · rintro ⟨e, ⟨hmem, hcand⟩, hname⟩
    exact ⟨e, (ordenaPorNome_perm listing).mem_iff.mp hmem, hname, hcand⟩
  · rintro ⟨e, hmem, hname, hcand⟩
    exact ⟨e, ⟨(ordenaPorNome_perm listing).mem_iff.mpr hmem, hcand⟩, hname⟩

/-- C1 counterexample: the directory `backup_backup_2000-01-01` does not
match the pattern `backup_<YYYY-MM-DD>` (the spec's notion of a matching
name), yet `rotacionar_backups` removes it, because
`replace("backup_", "")` deletes every occurrence of the pattern, leaving
the parseable string `2000-01-01`. -/
theorem c1_counterexample :
    specMatchesBackupPattern "backup_backup_2000-01-01" = false ∧
    (rotacionarBackups false ((toOrdinal 2025 10 12 : Int) * usecPorDia) 30
      [⟨"backup_backup_2000-01-01", true⟩] (fun _ => true)).1 =
      ["backup_backup_2000-01-01"] := by
  constructor
  · decide
  · decide


lemma resultadoDe_executar (c : BackupConfig) (w : World) (dry : Bool) :
    resultadoDe (executar c w dry) =
      (match verificarEspacoDisco c w with
       | none => if (verificarHdMontado c w).1 then none else some false
       | some _ => some ((verificarHdMontado c w).1 &&
           ((espacoEtapa c w).1 && (executarRsync c w dry).1))) := by
  unfold executar resultadoDe
  cases hv : verificarEspacoDisco c w with
  | none =>
    by_cases hb : (verificarHdMontado c w).1
    · simp [hb]
    · simp [hb, runSteps_stepsOf_fst]
  | some s2 => simp [runSteps_stepsOf_fst]

/-- C7: rotation reports the count of directories actually removed, a
failing removal (`removeOk` false on that name) skips only that directory
while every other candidate is still removed, and the run outcome of
`executar` is unchanged under any change of removal successes or
failures. -/
theorem c7_rotation_partial_failure (nowUsec : Int) (ret : Nat)
    (listing : List DirEntry) (removeOk : String → Bool) (c : BackupConfig)
    (ex : Bool) (mrc : Int) (du : Option DiskUsage) (rs : Option Int)
    (ls : List DirEntry) (f g : String → Bool) (nw : Int) (dry : Bool) :
    (rotacionarBackups false nowUsec ret listing removeOk).2 =
      (rotacionarBackups false nowUsec ret listing removeOk).1.length ∧
    (rotacionarBackups false nowUsec ret listing removeOk).1 =
      ((ordenaPorNome listing).filter
        (fun e => isRotationCandidate nowUsec ret e && removeOk e.name)).map DirEntry.name ∧
    resultadoDe (executar c ⟨ex, mrc, du, rs, ls, f, nw⟩ dry) =
      resultadoDe (executar c ⟨ex, mrc, du, rs, ls, g, nw⟩ dry) := by
  have hfun : removedByLoop (nowUsec - (ret : Int) * usecPorDia) removeOk =
      fun e => isRotationCandidate nowUsec ret e && removeOk e.name :=
    funext fun e => removedByLoop_split nowUsec ret removeOk e
  have hrot : rotacionarBackups false nowUsec ret listing removeOk =
      (((ordenaPorNome listing).filter
          (fun e => isRotationCandidate nowUsec ret e && removeOk e.name)).map DirEntry.name,
       ((ordenaPorNome listing).filter
          (fun e => isRotationCandidate nowUsec ret e && removeOk e.name)).length) := by
    rw [rotacionarBackups, if_neg Bool.false_ne_true, rotLoop_eq, hfun]
    simp
  refine ⟨?_, ?_, ?_⟩
  · rw [hrot]
    simp
  · rw [hrot]
  · rw [resultadoDe_executar, resultadoDe_executar]
    rfl

/-- C2: with dry-run set, every event of the run leaves the destination
untouched (no backup directory creation, the rsync invocation carries
`--dry-run`, no recursive removal), and the rotation body is skipped
entirely, returning without removing anything for any arguments. -/
theorem c2_dry_run_no_mutation (c : BackupConfig) (w : World) (nowUsec : Int)
    (ret : Nat) (listing : List DirEntry) (removeOk : String → Bool) :
    ((eventosDe (executar c w true)).all (fun e => !mutatesDestino e)) = true ∧
    countRmtree (eventosDe (executar c w true)) = 0 ∧
    rotacionarBackups true nowUsec ret listing removeOk = ([], 0) := by
  have hrot : ∀ (nw : Int) (rt : Nat) (l : List DirEntry) (rOk : String → Bool),
      rotacionarBackups true nw rt l rOk = ([], 0) := by
    intro nw rt l rOk
    rw [rotacionarBackups, if_pos rfl]
  refine ⟨?_, ?_, hrot nowUsec ret listing removeOk⟩
  all_goals
    obtain hm | hm := verificarHdMontado_cases c w <;>
      obtain hv | hv | hv | hv | hv := verificarEspacoDisco_cases c w <;>
        obtain hr | hr := executarRsync_cases c w true <;>
          simp [executar, eventosDe, espacoEtapa, stepsOf, runSteps, hm, hv, hr, hrot,
            mutatesDestino, countRmtree, List.countP_append, List.countP_cons,
            List.countP_nil]

/-- C4: if the destination does not exist or `mountpoint -q` exits nonzero,
the run stops at the mount check with a single critical notification, the
transfer is never invoked, `executar` reports failure and the process exits
with status 1. -/
theorem c4_mount_precheck_abort (c : BackupConfig) (w : World) (dry : Bool)
    (h : w.destinoExists = false ∨ w.mountpointRC ≠ 0) :
    executar c w dry = some (false, [Event.notify "❌ Backup Falhou" Urgency.critical]) ∧
    countTransfer (eventosDe (executar c w dry)) = 0 ∧
    mainExitCode c w dry = 1 := by
  have hm := verificarHdMontado_fail c w h
  have hex : executar c w dry =
      some (false, [Event.notify "❌ Backup Falhou" Urgency.critical]) := by
    unfold executar
    cases hv : verificarEspacoDisco c w with
    | none => simp [hm, stepsOf, runSteps]
    | some s2 => simp [hm, stepsOf, runSteps]
  refine ⟨hex, ?_, ?_⟩
  · rw [hex]
    rfl
  · simp [mainExitCode, hex]

/-- C4 witness: a nonexistent destination aborts with exit status 1 and the
single mount-failure notification. -/
theorem c4_witness :
    executar ⟨"/home/u", "/mnt/backup", "~/logs/backup", 30, 5, []⟩
        ⟨false, 1, none, none, [], (fun _ => true), 0⟩ false =
      some (false, [Event.notify "❌ Backup Falhou" Urgency.critical]) ∧
    mainExitCode ⟨"/home/u", "/mnt/backup", "~/logs/backup", 30, 5, []⟩
        ⟨false, 1, none, none, [], (fun _ => true), 0⟩ false = 1 := by
  have h := c4_mount_precheck_abort ⟨"/home/u", "/mnt/backup", "~/logs/backup", 30, 5, []⟩
      ⟨false, 1, none, none, [], (fun _ => true), 0⟩ false (Or.inl rfl)
  exact ⟨h.1, h.2.2⟩

/-- C3 (amended): after a passing mount check (non-dry run), provided the
disk-usage query reports a nonzero total size, the space check follows the
three-band policy — a query `OSError` or free space below the minimum
aborts before any transfer with one critical notification; free space in
`[min, 2·min)` proceeds to the transfer with exactly one normal-urgency
warning; free space at or above `2·min` proceeds with no normal-urgency
notification.  When the query succeeds reporting `total = 0`, the
percent-used division raises an uncaught `ZeroDivisionError` and the run
dies with no notification at all. -/
theorem c3_space_check_policy (c : BackupConfig) (w : World)
    (hex : w.destinoExists = true) (hrc : w.mountpointRC = 0) :
    (w.diskUsage = none →
      resultadoDe (executar c w false) = some false ∧
      countTransfer (eventosDe (executar c w false)) = 0 ∧
      countUrg Urgency.critical (eventosDe (executar c w false)) = 1) ∧
    (∀ uso : DiskUsage, w.diskUsage = some uso → uso.total = 0 →
      executar c w false = none) ∧
    (∀ uso : DiskUsage, w.diskUsage = some uso → uso.total ≠ 0 →
      (livreGb uso < c.espacoMinimoGb →
        resultadoDe (executar c w false) = some false ∧
        countTransfer (eventosDe (executar c w false)) = 0 ∧
        countUrg Urgency.critical (eventosDe (executar c w false)) = 1) ∧
      (c.espacoMinimoGb ≤ livreGb uso → livreGb uso < c.espacoMinimoGb * 2 →
        countTransfer (eventosDe (executar c w false)) = 1 ∧
        countUrg Urgency.normal (eventosDe (executar c w false)) = 1) ∧
      (c.espacoMinimoGb * 2 ≤ livreGb uso →
        countTransfer (eventosDe (executar c w false)) = 1 ∧
        countUrg Urgency.normal (eventosDe (executar c w false)) = 0)) := by
  have hm := verificarHdMontado_ok c w hex hrc
  refine ⟨?_, ?_, ?_⟩
  · intro hdu
    have hs := verificarEspacoDisco_none c w hdu
    simp [executar, resultadoDe, eventosDe, espacoEtapa, stepsOf, runSteps, hm, hs,
      countTransfer, countUrg, List.countP_append, List.countP_cons, List.countP_nil]
  · intro uso hdu h0
    have hs := verificarEspacoDisco_crash c w uso hdu h0
    simp [executar, hs, hm]
  · intro uso hdu h0
    refine ⟨?_, ?_, ?_⟩
    · intro hl
      have hs := verificarEspacoDisco_low c w uso hdu h0 hl
      simp [executar, resultadoDe, eventosDe, espacoEtapa, stepsOf, runSteps, hm, hs,
        countTransfer, countUrg, List.countP_append, List.countP_cons, List.countP_nil]
    · intro h1 h2
      have hs := verificarEspacoDisco_warn c w uso hdu h0 h1 h2
      obtain hr | hr := executarRsync_cases c w false <;>
        simp [executar, eventosDe, espacoEtapa, stepsOf, runSteps, hm, hs, hr,
          countTransfer, countUrg, List.countP_append, List.countP_cons,
          List.countP_nil, List.countP_map, Function.comp]
    · intro h2
      have hs := verificarEspacoDisco_hi c w uso hdu h0 h2
      obtain hr | hr := executarRsync_cases c w false <;>
        simp [executar, eventosDe, espacoEtapa, stepsOf, runSteps, hm, hs, hr,
          countTransfer, countUrg, List.countP_append, List.countP_cons,
          List.countP_nil, List.countP_map, Function.comp]

/-- C3 counterexample: with the destination a mounted pseudo-filesystem
whose reported total size is 0 (as `shutil.disk_usage` returns for
`/proc`), free space (0 GB) is below the 5 GB minimum, yet the run neither
aborts cleanly nor sends any critical notification — the percent-used
division raises an uncaught `ZeroDivisionError` and the process dies. -/
theorem c3_counterexample :
    livreGb ⟨0, 0, 0⟩ < (5 : ℚ) ∧
    executar ⟨"/home/u", "/proc", "~/logs/backup", 30, 5, []⟩
        ⟨true, 0, some ⟨0, 0, 0⟩, some 0, [], (fun _ => true), 0⟩ false = none ∧
    countUrg Urgency.critical (eventosDe (executar
        ⟨"/home/u", "/proc", "~/logs/backup", 30, 5, []⟩
        ⟨true, 0, some ⟨0, 0, 0⟩, some 0, [], (fun _ => true), 0⟩ false)) = 0 := by
  refine ⟨by norm_num [livreGb], rfl, rfl⟩

/-- C3 witness: with a 5 GB minimum and 6 GiB free (warning band), the run
proceeds to the transfer and sends exactly one normal-urgency warning. -/
theorem c3_witness :
    countTransfer (eventosDe (executar ⟨"/home/u", "/mnt/backup", "~/logs/backup", 30, 5, []⟩
        ⟨true, 0, some ⟨107374182400, 100932403200, 6442450944⟩, some 0, [],
          (fun _ => true), 0⟩ false)) = 1 ∧
    countUrg Urgency.normal (eventosDe (executar
        ⟨"/home/u", "/mnt/backup", "~/logs/backup", 30, 5, []⟩
        ⟨true, 0, some ⟨107374182400, 100932403200, 6442450944⟩, some 0, [],
          (fun _ => true), 0⟩ false)) = 1 := by
  have h := c3_space_check_policy ⟨"/home/u", "/mnt/backup", "~/logs/backup", 30, 5, []⟩
      ⟨true, 0, some ⟨107374182400, 100932403200, 6442450944⟩, some 0, [],
        (fun _ => true), 0⟩ rfl rfl
  exact (h.2.2 ⟨107374182400, 100932403200, 6442450944⟩ rfl (by norm_num)).2.1
    (by norm_num [livreGb]) (by norm_num [livreGb])

/-- C5: for a run that passes the mount and space checks, an rsync exit
status of 0 yields a successful outcome and (non-dry-run) exactly one
low-urgency success notification; a nonzero exit status or a launch
exception yields a failed outcome with exactly one critical notification
and no rotation removal. -/
theorem c5_transfer_outcomes (c : BackupConfig) (w : World) (dry : Bool)
    (s2evs : List Event)
    (hm : (verificarHdMontado c w).1 = true)
    (hs : verificarEspacoDisco c w = some (true, s2evs)) :
    (w.rsyncRC = some 0 →
      resultadoDe (executar c w dry) = some true ∧
      (dry = false → countUrg Urgency.low (eventosDe (executar c w dry)) = 1)) ∧
    (∀ rc : Int, w.rsyncRC = some rc → rc ≠ 0 →
      resultadoDe (executar c w dry) = some false ∧
      countUrg Urgency.critical (eventosDe (executar c w dry)) = 1 ∧
      countRmtree (eventosDe (executar c w dry)) = 0) ∧
    (w.rsyncRC = none →
      resultadoDe (executar c w dry) = some false ∧
      countUrg Urgency.critical (eventosDe (executar c w dry)) = 1 ∧
      countRmtree (eventosDe (executar c w dry)) = 0) := by
  have hm2 : verificarHdMontado c w = (true, []) := by
    obtain h | h := verificarHdMontado_cases c w
    · exact h
    · rw [h] at hm
      exact absurd hm (by simp)
  have hse : espacoEtapa c w = (true, s2evs) := by
    simp [espacoEtapa, hs]
  have hs2 : s2evs = [Event.notify "⚠️ Espaço em Disco Baixo" Urgency.normal] ∨
      s2evs = [] := by
    obtain h | h | h | h | h := verificarEspacoDisco_cases c w <;> rw [h] at hs
    · exact absurd hs (by simp)
    · exact absurd hs (by simp)
    · exact absurd hs (by simp)
    · injection hs with hpair
      exact Or.inl (congrArg Prod.snd hpair).symm
    · injection hs with hpair
      exact Or.inr (congrArg Prod.snd hpair).symm
  refine ⟨?_, ?_, ?_⟩
  · intro h0
    have hr := executarRsync_ok c w dry h0
    constructor
    · simp [resultadoDe_executar, hs, hm, hse, hr]
    · intro hdry
      subst hdry
      obtain hsE | hsE := hs2 <;> subst hsE <;>
        simp [executar, eventosDe, hs, hse, stepsOf, runSteps, hm2, hr, countUrg,
          List.countP_append, List.countP_cons, List.countP_nil, List.countP_map,
          Function.comp]
  · intro rc h0 hne
    have hr := executarRsync_fail c w dry (Or.inr ⟨rc, h0, hne⟩)
    refine ⟨?_, ?_, ?_⟩
    · simp [resultadoDe_executar, hs, hm, hse, hr]
    · obtain hsE | hsE := hs2 <;> subst hsE <;> cases dry <;>
        simp [executar, eventosDe, hs, hse, stepsOf, runSteps, hm2, hr, countUrg,
          List.countP_append, List.countP_cons, List.countP_nil]
    · obtain hsE | hsE := hs2 <;> subst hsE <;> cases dry <;>
        simp [executar, eventosDe, hs, hse, stepsOf, runSteps, hm2, hr, countRmtree,
          List.countP_append, List.countP_cons, List.countP_nil]
  · intro h0
    have hr := executarRsync_fail c w dry (Or.inl h0)
    refine ⟨?_, ?_, ?_⟩
    · simp [resultadoDe_executar, hs, hm, hse, hr]
    · obtain hsE | hsE := hs2 <;> subst hsE <;> cases dry <;>
        simp [executar, eventosDe, hs, hse, stepsOf, runSteps, hm2, hr, countUrg,
          List.countP_append, List.countP_cons, List.countP_nil]
    · obtain hsE | hsE := hs2 <;> subst hsE <;> cases dry <;>
        simp [executar, eventosDe, hs, hse, stepsOf, runSteps, hm2, hr, countRmtree,
          List.countP_append, List.countP_cons, List.countP_nil]

/-- C5 witness: a clean run (mounted, 16 GiB free against a 5 GB minimum,
rsync exit 0, non-dry-run) succeeds with exactly one low-urgency success
notification. -/
theorem c5_witness :
    resultadoDe (executar ⟨"/home/u", "/mnt/backup", "~/logs/backup", 30, 5, []⟩
        ⟨true, 0, some ⟨107374182400, 90194313216, 17179869184⟩, some 0, [],
          (fun _ => true), 0⟩ false) = some true ∧
    countUrg Urgency.low (eventosDe (executar
        ⟨"/home/u", "/mnt/backup", "~/logs/backup", 30, 5, []⟩
        ⟨true, 0, some ⟨107374182400, 90194313216, 17179869184⟩, some 0, [],
          (fun _ => true), 0⟩ false)) = 1 := by
  have hsp : verificarEspacoDisco (⟨"/home/u", "/mnt/backup", "~/logs/backup", 30, 5, []⟩ :
        BackupConfig)
      (⟨true, 0, some ⟨107374182400, 90194313216, 17179869184⟩, some 0, [],
        (fun _ => true), 0⟩ : World) = some (true, []) :=
    verificarEspacoDisco_hi _ _ ⟨107374182400, 90194313216, 17179869184⟩ rfl
      (by norm_num) (by norm_num [livreGb])
  have h := c5_transfer_outcomes ⟨"/home/u", "/mnt/backup", "~/logs/backup", 30, 5, []⟩
      ⟨true, 0, some ⟨107374182400, 90194313216, 17179869184⟩, some 0, [],
        (fun _ => true), 0⟩ false []
      (by rw [verificarHdMontado_ok _ _ rfl rfl]) hsp
  exact ⟨(h.1 rfl).1, (h.1 rfl).2 rfl⟩

/-- C6: modelling the asynchronous signal cooperatively at stage boundaries
of a still-continuing run (every completed stage passed, a further stage
was about to begin), the handler terminates the process with exit status
130, sets the interruption flag, appends exactly its single critical
notification to the trace, and no stage runs after the signal — the total
trace holds exactly one critical notification. -/
theorem c6_interrupt_behavior (c : BackupConfig) (w : World) (dry : Bool) (k : Nat)
    (sig : String) (hk : k < (stepsOf c w dry).length)
    (halive : ∀ st ∈ (stepsOf c w dry).take k, st.1 = true) :
    (runSignalled (stepsOf c w dry) k sig).2.2 = 130 ∧
    (runSignalled (stepsOf c w dry) k sig).2.1 = true ∧
    (runSignalled (stepsOf c w dry) k sig).1 =
      (((stepsOf c w dry).take k).map Prod.snd).flatten ++
        [Event.notify "⚠️ Backup Interrompido" Urgency.critical] ∧
    countUrg Urgency.critical (runSignalled (stepsOf c w dry) k sig).1 = 1 := by
  refine ⟨rfl, rfl, rfl, ?_⟩
  have hlen : (stepsOf c w dry).length = 4 := by simp [stepsOf]
  rw [hlen] at hk
  interval_cases k
  · simp [runSignalled, handlerSinal, stepsOf, countUrg, List.countP_append,
      List.countP_cons, List.countP_nil]
  · have h1 : (verificarHdMontado c w).1 = true := halive _ (by simp [stepsOf])
    obtain hm | hm := verificarHdMontado_cases c w
    · simp [runSignalled, handlerSinal, stepsOf, hm, countUrg, List.countP_append,
        List.countP_cons, List.countP_nil]
    · rw [hm] at h1
      exact absurd h1 (by simp)
  · have h1 : (verificarHdMontado c w).1 = true := halive _ (by simp [stepsOf])
    have h2 : (espacoEtapa c w).1 = true := halive _ (by simp [stepsOf])
    obtain hm | hm := verificarHdMontado_cases c w
    · obtain hs | hs | hs | hs | hs := espacoEtapa_cases c w
      · rw [hs] at h2
        exact absurd h2 (by simp)
      · rw [hs] at h2
        exact absurd h2 (by simp)
      · rw [hs] at h2
        exact absurd h2 (by simp)
      · simp [runSignalled, handlerSinal, stepsOf, hm, hs, countUrg,
          List.countP_append, List.countP_cons, List.countP_nil]
      · simp [runSignalled, handlerSinal, stepsOf, hm, hs, countUrg,
          List.countP_append, List.countP_cons, List.countP_nil]
    · rw [hm] at h1
      exact absurd h1 (by simp)
  · have h1 : (verificarHdMontado c w).1 = true := halive _ (by simp [stepsOf])
    have h2 : (espacoEtapa c w).1 = true := halive _ (by simp [stepsOf])
    have h3 : (executarRsync c w dry).1 = true := halive _ (by simp [stepsOf])
    obtain hm | hm := verificarHdMontado_cases c w
    · obtain hs | hs | hs | hs | hs := espacoEtapa_cases c w
      · rw [hs] at h2
        exact absurd h2 (by simp)
      · rw [hs] at h2
        exact absurd h2 (by simp)
      · rw [hs] at h2
        exact absurd h2 (by simp)
      all_goals
        obtain hr | hr := executarRsync_cases c w dry
        · cases dry <;>
            simp [runSignalled, handlerSinal, stepsOf, hm, hs, hr, countUrg,
              List.countP_append, List.countP_cons, List.countP_nil]
        · rw [hr] at h3
          exact absurd h3 (by simp)
    · rw [hm] at h1
      exact absurd h1 (by simp)

/-- C6 witness: a signal arriving after the mount and space checks of a
healthy run exits with status 130, flags interruption, and the trace holds
exactly one critical notification. -/
theorem c6_witness :
    (runSignalled (stepsOf ⟨"/home/u", "/mnt/backup", "~/logs/backup", 30, 5, []⟩
        ⟨true, 0, some ⟨107374182400, 90194313216, 17179869184⟩, some 0, [],
          (fun _ => true), 0⟩ false) 2 "SIGINT").2.2 = 130 ∧
    (runSignalled (stepsOf ⟨"/home/u", "/mnt/backup", "~/logs/backup", 30, 5, []⟩
        ⟨true, 0, some ⟨107374182400, 90194313216, 17179869184⟩, some 0, [],
          (fun _ => true), 0⟩ false) 2 "SIGINT").2.1 = true ∧
    countUrg Urgency.critical (runSignalled (stepsOf
        ⟨"/home/u", "/mnt/backup", "~/logs/backup", 30, 5, []⟩
        ⟨true, 0, some ⟨107374182400, 90194313216, 17179869184⟩, some 0, [],
          (fun _ => true), 0⟩ false) 2 "SIGINT").1 = 1 := by
  have hsp : verificarEspacoDisco (⟨"/home/u", "/mnt/backup", "~/logs/backup", 30, 5, []⟩ :
        BackupConfig)
      (⟨true, 0, some ⟨107374182400, 90194313216, 17179869184⟩, some 0, [],
        (fun _ => true), 0⟩ : World) = some (true, []) :=
    verificarEspacoDisco_hi _ _ ⟨107374182400, 90194313216, 17179869184⟩ rfl
      (by norm_num) (by norm_num [livreGb])
  have h := c6_interrupt_behavior ⟨"/home/u", "/mnt/backup", "~/logs/backup", 30, 5, []⟩
      ⟨true, 0, some ⟨107374182400, 90194313216, 17179869184⟩, some 0, [],
        (fun _ => true), 0⟩ false 2 "SIGINT"
      (by simp [stepsOf])
      (by
        intro st hst
        simp [stepsOf] at hst
        rcases hst with hst | hst
        · rw [hst, verificarHdMontado_ok _ _ rfl rfl]
        · rw [hst]
          simp [espacoEtapa, hsp])
  exact ⟨h.1, h.2.1, h.2.2.2⟩
